import Mathlib

/-!
Verification development for the safe SQL synthesis, validation and execution
pipeline of the Agentic-DW repository: shallow embeddings of the SQL guardrail
(`agent/executor.py`), the allow-list enforcer (`agent/sql_llm_generator.py`),
the feature/SQL builder (`mining/feature_builder.py`), the repair/retry
orchestrator (`api/routes.py`), the snapshot store (`mining/snapshots.py`) and
the plan→SQL cache (`metadata/store.py`), together with theorems settling the
specification claims.

SQL text is modelled as `List Char`; Python string operations are embedded as
explicit list functions restricted to ASCII behaviour (the repository only
manipulates ASCII SQL keywords and identifiers at these checkpoints).
-/

set_option maxRecDepth 20000

abbrev Str := List Char

deriving instance DecidableEq for Except

/-- ASCII whitespace, matching Python `str.strip` / regex `\s` on ASCII input. -/
def pySpace (c : Char) : Bool :=
  c == ' ' || c == '\t' || c == '\n' || c == '\x0b' || c == '\x0c' || c == '\r'

/-- Python `str.strip()` (ASCII whitespace). -/
def pyStrip (s : Str) : Str :=
  ((s.dropWhile pySpace).reverse.dropWhile pySpace).reverse

/-- Python `str.lower()` on ASCII input. -/
def pyLower (s : Str) : Str := s.map Char.toLower

/-- Worker for `collapseWs`; the flag records whether the previous character
was whitespace (so a maximal run is replaced by a single space). -/
def collapseWsAux : Bool → Str → Str
  | _, [] => []
  | prev, c :: cs =>
    if pySpace c then
      if prev then collapseWsAux true cs else ' ' :: collapseWsAux true cs
    else c :: collapseWsAux false cs

/-- Python `re.sub(r"\s+", " ", s)`: every maximal whitespace run becomes one space. -/
def collapseWs (s : Str) : Str := collapseWsAux false s

/-- `startsWithL pat s`: `pat` is a literal leading pattern of `s`. -/
def startsWithL : Str → Str → Bool
  | [], _ => true
  | _ :: _, [] => false
  | p :: ps, c :: cs => p == c && startsWithL ps cs

/-- Python `needle in s` (substring containment). -/
def hasSub (needle : Str) : Str → Bool
  | [] => needle == []
  | c :: cs => startsWithL needle (c :: cs) || hasSub needle cs

/-- Python regex word character `\w` on ASCII: `[A-Za-z0-9_]`. -/
def wordChar (c : Char) : Bool := c.isAlphanum || c == '_'

/-- Leading character of a SQL identifier: `[A-Za-z_]`. -/
def identStartChar (c : Char) : Bool := c.isAlpha || c == '_'

/-- Python `str.rstrip(";")`: strip all trailing `';'` characters. -/
def rstripSemis (s : Str) : Str := (s.reverse.dropWhile (· == ';')).reverse

namespace Executor

/-- `_DENYLIST` of `src/agent/executor.py` (lines 14–29), in source order. -/
def DENYLIST : List Str :=
  ["insert".data, "update".data, "delete".data, "drop".data, "alter".data,
   "create".data, "truncate".data, "grant".data, "revoke".data, "copy".data,
   "call".data, "do".data, "vacuum".data, "comment".data]

/-- `_normalize_sql` of `src/agent/executor.py`:
`re.sub(r"\s+", " ", sql.strip()).lower()`. -/
def normalize_sql (sql : Str) : Str := pyLower (collapseWs (pyStrip sql))

/-- Does `\b kw \b` match at the head of `s` (for a keyword consisting of word
characters)?  `kw` must be a literal leading pattern and the next character, if
any, must not be a word character. -/
def tokenHereB (kw s : Str) : Bool :=
  startsWithL kw s &&
    (match s.drop kw.length with
     | [] => true
     | d :: _ => !wordChar d)

/-- Scanner for `re.search(rf"\b{kw}\b", s)`: the flag records whether the
previously scanned character was a word character (for the `\b` test). -/
def scanWordB (kw : Str) : Bool → Str → Bool
  | _, [] => false
  | prevW, c :: cs => (!prevW && tokenHereB kw (c :: cs)) || scanWordB kw (wordChar c) cs

/-- `re.search(rf"\b{kw}\b", s)` succeeds, for a keyword made of word characters. -/
def containsWordB (kw s : Str) : Bool := scanWordB kw false s

/-- The distinct `UnsafeSQLError` raise sites of `validate_sql`. -/
inductive GuardErr
  | emptySql
  | multipleStatements
  | semicolonNotAtEnd
  | notSelect
  | blockedKeyword (kw : Str)
deriving DecidableEq

/-- `validate_sql` of `src/agent/executor.py` (lines 36–55). -/
def validate_sql (sql : Str) : Except GuardErr Str :=
  let candidate := pyStrip sql
  if candidate = [] then .error .emptySql
  else if 1 < candidate.count ';' then .error .multipleStatements
  else if candidate.count ';' = 1 ∧ ¬ candidate.getLast? = some ';' then
    .error .semicolonNotAtEnd
  else
    let normalized := normalize_sql (rstripSemis candidate)
    if ¬ (startsWithL "select ".data normalized = true ∨
          startsWithL "with ".data normalized = true) then .error .notSelect
    else
      match DENYLIST.find? (fun kw => containsWordB kw normalized) with
      | some kw => .error (.blockedKeyword kw)
      | none => .ok (rstripSemis candidate)

example : validate_sql "select 1;".data = .ok ("select 1".data) := by decide
example : validate_sql "  SELECT a FROM t  ".data = .ok ("SELECT a FROM t".data) := by decide
example : validate_sql "".data = .error .emptySql := by decide
example : validate_sql "   ".data = .error .emptySql := by decide
example : validate_sql "select 1; select 2;".data = .error .multipleStatements := by decide
example : validate_sql "select 1; --x".data = .error .semicolonNotAtEnd := by decide
example : validate_sql "insert into t values (1)".data = .error .notSelect := by decide
example : validate_sql "select * from t where drop = 1".data
    = .error (.blockedKeyword "drop".data) := by decide
example : validate_sql "with x as (select 1) select * from x".data
    = .ok ("with x as (select 1) select * from x".data) := by decide
example : validate_sql "select dropped from t".data = .ok ("select dropped from t".data) := by
  decide
example : validate_sql "select".data = .error .notSelect := by decide
example : validate_sql "select t.copy from t".data
    = .error (.blockedKeyword "copy".data) := by decide
example : validate_sql "select copy_count from t".data
    = .ok ("select copy_count from t".data) := by decide
example : validate_sql "select to_char(d) from t".data
    = .ok ("select to_char(d) from t".data) := by decide

end Executor

/-- Left word-boundary condition for a match starting right after `pre`: at
the string start the scanner's incoming word-state must be non-word, otherwise
the character just before the match must not be a word character. -/
def BoundaryL (prevW : Bool) (pre : Str) : Prop :=
  match pre.getLast? with
  | none => prevW = false
  | some c => wordChar c = false

/-- Right word-boundary condition after a match: nothing follows, or the next
character is not a word character. -/
def BoundaryR (post : Str) : Prop :=
  post = [] ∨ ∃ d ds, post = d :: ds ∧ wordChar d = false

/-- A word-boundary-delimited occurrence of `kw` in `s` (the declarative
meaning of `re.search(rf"\b{kw}\b", s)` for a keyword of word characters). -/
def HasWordToken (kw s : Str) : Prop :=
  ∃ pre post, s = pre ++ kw ++ post ∧ BoundaryL false pre ∧ BoundaryR post

theorem startsWithL_iff (p : Str) : ∀ s : Str,
    startsWithL p s = true ↔ ∃ rest, s = p ++ rest := by
  induction p with
  | nil => intro s; simp [startsWithL]
  | cons a ps ih =>
    intro s
    cases s with
    | nil => simp [startsWithL]
    | cons c cs =>
      simp only [startsWithL, Bool.and_eq_true, beq_iff_eq]
      constructor
      · rintro ⟨rfl, hsw⟩
        obtain ⟨rest, rfl⟩ := (ih cs).mp hsw
        exact ⟨rest, rfl⟩
      · rintro ⟨rest, hr⟩
        rw [List.cons_append] at hr
        injection hr with h1 h2
        exact ⟨h1.symm, (ih cs).mpr ⟨rest, h2⟩⟩

theorem tokenHereB_iff (kw s : Str) :
    Executor.tokenHereB kw s = true ↔ ∃ post, s = kw ++ post ∧ BoundaryR post := by
  unfold Executor.tokenHereB
  rw [Bool.and_eq_true, startsWithL_iff]
  constructor
  · rintro ⟨⟨rest, rfl⟩, hb⟩
    rw [List.drop_left] at hb
    refine ⟨rest, rfl, ?_⟩
    cases rest with
    | nil => exact Or.inl rfl
    | cons d ds =>
      right
      exact ⟨d, ds, rfl, by simpa using hb⟩
  · rintro ⟨post, rfl, hb⟩
    refine ⟨⟨post, rfl⟩, ?_⟩
    rw [List.drop_left]
    rcases hb with h | ⟨d, ds, rfl, hd⟩
    · rw [h]
    · simp [hd]

theorem scanWordB_iff (kw : Str) (hkw : kw ≠ []) : ∀ (rest : Str) (prevW : Bool),
    Executor.scanWordB kw prevW rest = true ↔
      ∃ pre post, rest = pre ++ kw ++ post ∧ BoundaryL prevW pre ∧ BoundaryR post := by
  intro rest
  induction rest with
  | nil =>
    intro prevW
    simp only [Executor.scanWordB]
    constructor
    · intro h; cases h
    · rintro ⟨pre, post, habs, _, _⟩
      rcases List.append_eq_nil.mp habs.symm with ⟨hpk, _⟩
      rcases List.append_eq_nil.mp hpk with ⟨_, hkw2⟩
      exact absurd hkw2 hkw
  | cons c cs ih =>
    intro prevW
    simp only [Executor.scanWordB, Bool.or_eq_true, Bool.and_eq_true, Bool.not_eq_true',
      tokenHereB_iff, ih]
    constructor
    · rintro (⟨hw, post, heq, hb⟩ | ⟨pre, post, heq, hbl, hbr⟩)
      · exact ⟨[], post, by simpa using heq, by simp [BoundaryL, hw], hb⟩
      · refine ⟨c :: pre, post, by simp [heq], ?_, hbr⟩
        unfold BoundaryL at hbl ⊢
        cases pre with
        | nil => simpa [List.getLast?] using hbl
        | cons p ps =>
          rw [List.getLast?_cons_cons]
          exact hbl
    · rintro ⟨pre, post, heq, hbl, hbr⟩
      cases pre with
      | nil =>
        left
        have hw : prevW = false := by simpa [BoundaryL] using hbl
        exact ⟨hw, post, by simpa using heq, hbr⟩
      | cons p ps =>
        right
        rw [List.cons_append, List.cons_append] at heq
        injection heq with h1 h2
        refine ⟨ps, post, h2, ?_, hbr⟩
        unfold BoundaryL at hbl ⊢
        subst h1
        cases ps with
        | nil => simpa [List.getLast?] using hbl
        | cons q qs =>
          rw [List.getLast?_cons_cons] at hbl
          exact hbl

/-- `containsWordB` computes exactly the declarative word-boundary-delimited
occurrence predicate, for non-empty keywords (every denylist keyword is). -/
theorem containsWordB_iff (kw s : Str) (hkw : kw ≠ []) :
    Executor.containsWordB kw s = true ↔ HasWordToken kw s :=
  scanWordB_iff kw hkw s false

/-- The acceptance condition of claim C1 (amended reading): all rules are
evaluated on the whitespace-stripped input, the leading-keyword test requires
`select`/`with` followed by a space in the normalized statement, and no
denylist keyword occurs as a word-boundary-delimited token of the normalized
statement. -/
def Claim1Accepts (sql : Str) : Prop :=
  pyStrip sql ≠ [] ∧
  (pyStrip sql).count ';' ≤ 1 ∧
  ((pyStrip sql).count ';' = 1 → (pyStrip sql).getLast? = some ';') ∧
  (startsWithL "select ".data (Executor.normalize_sql (rstripSemis (pyStrip sql))) = true ∨
   startsWithL "with ".data (Executor.normalize_sql (rstripSemis (pyStrip sql))) = true) ∧
  ∀ kw ∈ Executor.DENYLIST,
    ¬ HasWordToken kw (Executor.normalize_sql (rstripSemis (pyStrip sql)))

/-- C1 (amended): `validate_sql` succeeds exactly on inputs satisfying the
amended acceptance conditions, returning the whitespace-stripped input with
trailing semicolons removed; on all other inputs it fails with an
`UnsafeSQL`-style error. -/
theorem c1_validate_sql_characterization (sql : Str) :
    (Executor.validate_sql sql = .ok (rstripSemis (pyStrip sql)) ↔ Claim1Accepts sql) ∧
    ((∃ e, Executor.validate_sql sql = .error e) ↔ ¬ Claim1Accepts sql) := by
  unfold Executor.validate_sql Claim1Accepts
  by_cases h1 : pyStrip sql = []
  · simp [h1]
  · rw [if_neg h1]
    by_cases h2 : 1 < (pyStrip sql).count ';'
    · rw [if_pos h2]
      constructor
      · constructor
        · intro h; cases h
        · intro h; omega
      · constructor
        · intro _ h
          obtain ⟨_, hle, _⟩ := h
          omega
        · intro _; exact ⟨_, rfl⟩
    · rw [if_neg h2]
      by_cases h3 : (pyStrip sql).count ';' = 1 ∧ ¬ (pyStrip sql).getLast? = some ';'
      · rw [if_pos h3]
        constructor
        · constructor
          · intro h; cases h
          · intro h
            exact absurd (h.2.2.1 h3.1) h3.2
        · constructor
          · intro _ h
            exact absurd (h.2.2.1 h3.1) h3.2
          · intro _; exact ⟨_, rfl⟩
      · rw [if_neg h3]
        by_cases h4 :
            ¬ (startsWithL "select ".data
                 (Executor.normalize_sql (rstripSemis (pyStrip sql))) = true ∨
               startsWithL "with ".data
                 (Executor.normalize_sql (rstripSemis (pyStrip sql))) = true)
        · rw [if_pos h4]
          constructor
          · constructor
            · intro h; cases h
            · intro h; exact absurd h.2.2.2.1 h4
          · constructor
            · intro _ h; exact absurd h.2.2.2.1 h4
            · intro _; exact ⟨_, rfl⟩
        · rw [if_neg h4]
          push_neg at h4
          have hne : ∀ kw ∈ Executor.DENYLIST, kw ≠ [] := by decide
          cases hfind : Executor.DENYLIST.find?
              (fun kw => Executor.containsWordB kw
                (Executor.normalize_sql (rstripSemis (pyStrip sql)))) with
          | some kw =>
            have hmem := List.mem_of_find?_eq_some hfind
            have hp := List.find?_some hfind
            have htok := (containsWordB_iff kw _ (hne kw hmem)).mp hp
            constructor
            · constructor
              · intro h; cases h
              · intro h
                exact absurd htok (h.2.2.2.2 kw hmem)
            · constructor
              · intro _ h
                exact absurd htok (h.2.2.2.2 kw hmem)
              · intro _; exact ⟨_, rfl⟩
          | none =>
            rw [List.find?_eq_none] at hfind
            have hconds : Claim1Accepts sql := by
              refine ⟨h1, by omega, ?_, h4, ?_⟩
              · intro hc1
                by_contra hlast
                exact h3 ⟨hc1, hlast⟩
              · intro kw hkw htok
                exact hfind kw hkw ((containsWordB_iff kw _ (hne kw hkw)).mpr htok)
            constructor
            · constructor
              · intro _; exact hconds
              · intro _; rfl
            · constructor
              · rintro ⟨e, he⟩; cases he
              · intro hna; exact absurd hconds hna

/-- C1 counterexample: the input `"select 1 "` (trailing space) contains no
semicolon and no denylist keyword and begins with `select`, so the claim as
stated requires `validate` to succeed returning the input itself (there is no
trailing semicolon to remove).  The code instead returns the
whitespace-stripped input `"select 1"`. -/
theorem c1_counterexample :
    Executor.validate_sql "select 1 ".data = .ok ("select 1".data) ∧
    ¬ Executor.validate_sql "select 1 ".data = .ok ("select 1 ".data) := by decide

/-- A column entry of the schema-metadata dictionary; a missing or empty
`column_name` is represented by `[]` (both are falsy in the source). -/
structure ColumnMeta where
  column_name : Str
deriving DecidableEq

/-- A table entry of the schema-metadata dictionary; a missing or empty
`table_name` is represented by `[]`. -/
structure TableMeta where
  table_name : Str
  columns : List ColumnMeta
deriving DecidableEq

/-- An entity/measure/time-column candidate of the semantic map. -/
structure CandidateCol where
  table : Str
  column : Str
deriving DecidableEq

/-- A foreign-key-like relationship row of the semantic map. -/
structure Relationship where
  from_table : Str
  from_column : Str
  to_table : Str
  to_column : Str
deriving DecidableEq

/-- The schema-metadata dictionary consumed by the allow-list enforcer and the
feature builder. -/
structure SchemaMetadata where
  tables : List TableMeta
  entities : List CandidateCol
  measures : List CandidateCol
  time_columns : List CandidateCol
  relationships : List Relationship
deriving DecidableEq

/-- Python dict insert (later inserts overwrite earlier ones for lookup). -/
def dinsert {α : Type} (k : Str) (v : α) (m : List (Str × α)) : List (Str × α) :=
  (k, v) :: m.filter (fun p => !(p.1 == k))

/-- Python dict lookup. -/
def dget {α : Type} (m : List (Str × α)) (k : Str) : Option α :=
  (m.find? (fun p => p.1 == k)).map Prod.snd

/-- A character of the table-identifier class `[A-Za-z0-9_\.]`. -/
def identDotChar (c : Char) : Bool := wordChar c || c == '.'

/-- Python `token.split(".")[-1]`. -/
def lastDotComponent (tok : Str) : Str :=
  tok.foldl (fun acc c => if c == '.' then [] else acc ++ [c]) []

/-- Python `str.strip('"')`: strip leading and trailing double quotes. -/
def stripQuoteChars (s : Str) : Str :=
  ((s.dropWhile (· == '\"')).reverse.dropWhile (· == '\"')).reverse

namespace SqlLlmGenerator

/-- `_allowed_table_set` of `src/agent/sql_llm_generator.py` (lines 46–49).
The Python set is modelled as a list; only membership and emptiness are used. -/
def allowed_table_set : Option SchemaMetadata → List Str
  | none => []
  | some m =>
    m.tables.filterMap
      (fun t => if t.table_name ≠ [] then some (pyStrip t.table_name) else none)

/-- `_allowed_columns_map` of `src/agent/sql_llm_generator.py` (lines 52–66). -/
def allowed_columns_map : Option SchemaMetadata → List (Str × List Str)
  | none => []
  | some m =>
    m.tables.foldl
      (fun acc t =>
        if pyStrip t.table_name = [] then acc
        else
          dinsert (pyStrip t.table_name)
            (t.columns.filterMap
              (fun c => if c.column_name ≠ [] then some (pyStrip c.column_name) else none))
            acc)
      []

/-- One attempted match of `(?:from|join)\s+([A-Za-z_][A-Za-z0-9_\.]*)` at the
current position (the leading `\b` is checked by the caller).  Returns the
captured identifier token, the number of characters consumed and whether the
last consumed character is a word character. -/
def matchFromJoinIdent (s : Str) : Option (Str × Nat × Bool) :=
  let low := pyLower (s.take 4)
  if low = "from".data ∨ low = "join".data then
    let s1 := s.drop 4
    let ws := s1.takeWhile pySpace
    if ws = [] then none
    else
      match s1.drop ws.length with
      | [] => none
      | d :: ds =>
        if identStartChar d then
          let tok := d :: ds.takeWhile identDotChar
          some (tok, 4 + ws.length + tok.length, wordChar (tok.getLastD d))
        else none
  else none

/-- Left-to-right non-overlapping scan with the table-reference pattern, as
`re.findall`.  The fuel argument is an upper bound on the number of steps
(every step consumes at least one character, so the input length suffices). -/
def scanTableRefs : Nat → Bool → Str → List Str
  | 0, _, _ => []
  | _ + 1, _, [] => []
  | fuel + 1, prevW, c :: cs =>
    match (if prevW then none else matchFromJoinIdent (c :: cs)) with
    | some (tok, consumed, w) => tok :: scanTableRefs fuel w ((c :: cs).drop consumed)
    | none => scanTableRefs fuel (wordChar c) cs

/-- `_extract_tables_from_sql` of `src/agent/sql_llm_generator.py` (lines
69–76).  The Python set is modelled as the list of extracted names. -/
def extract_tables_from_sql (sql : Str) : List Str :=
  (scanTableRefs (sql.length + 1) false sql).map
    (fun tok => lastDotComponent (stripQuoteChars (pyStrip tok)))

/-- `_assert_allowlisted_tables` of `src/agent/sql_llm_generator.py` (lines
79–86).  The raised `RuntimeError` is modelled as an error carrying the
disallowed table names (the source sorts them into its message). -/
def assert_allowlisted_tables (sql : Str) (md : Option SchemaMetadata) :
    Except (List Str) Unit :=
  let allowed := allowed_table_set md
  if allowed = [] then .ok ()
  else
    let disallowed := (extract_tables_from_sql sql).filter (fun t => !(allowed.contains t))
    if disallowed = [] then .ok () else .error disallowed

/-- One attempted match of
`(?:from|join)\s+([A-Za-z_][A-Za-z0-9_\.]*)\s*(?:as\s+)?([A-Za-z_][A-Za-z0-9_]*)?`
at the current position: the table token, then greedy whitespace, an optional
`as` keyword (only when followed by whitespace) and an optional alias token. -/
def matchAliasRef (s : Str) : Option ((Str × Option Str) × Nat × Bool) :=
  match matchFromJoinIdent s with
  | none => none
  | some (tok, n0, w0) =>
    let r0 := s.drop n0
    let ws2 := r0.takeWhile pySpace
    let r1 := r0.drop ws2.length
    let asTry : Option Nat :=
      if pyLower (r1.take 2) = "as".data then
        let ws3 := (r1.drop 2).takeWhile pySpace
        if ws3 = [] then none else some (2 + ws3.length)
      else none
    match asTry with
    | some nAs =>
      match r1.drop nAs with
      | d :: ds =>
        if identStartChar d then
          let al := d :: ds.takeWhile wordChar
          some ((tok, some al), n0 + ws2.length + nAs + al.length, true)
        else some ((tok, none), n0 + ws2.length + nAs, false)
      | [] => some ((tok, none), n0 + ws2.length + nAs, false)
    | none =>
      match r1 with
      | d :: ds =>
        if identStartChar d then
          let al := d :: ds.takeWhile wordChar
          some ((tok, some al), n0 + ws2.length + al.length, true)
        else some ((tok, none), n0 + ws2.length, if ws2 = [] then w0 else false)
      | [] => some ((tok, none), n0 + ws2.length, if ws2 = [] then w0 else false)

/-- Left-to-right non-overlapping scan with the alias pattern. -/
def scanAliasRefs : Nat → Bool → Str → List (Str × Option Str)
  | 0, _, _ => []
  | _ + 1, _, [] => []
  | fuel + 1, prevW, c :: cs =>
    match (if prevW then none else matchAliasRef (c :: cs)) with
    | some (pair, consumed, w) => pair :: scanAliasRefs fuel w ((c :: cs).drop consumed)
    | none => scanAliasRefs fuel (wordChar c) cs

/-- `_extract_table_aliases` of `src/agent/sql_llm_generator.py` (lines
89–103). -/
def extract_table_aliases (sql : Str) : List (Str × Str) :=
  (scanAliasRefs (sql.length + 1) false sql).foldl
    (fun acc pair =>
      let table := lastDotComponent (stripQuoteChars (pyStrip pair.1))
      if table = [] then acc
      else
        let acc1 := dinsert table table acc
        match pair.2 with
        | some al => dinsert (stripQuoteChars (pyStrip al)) table acc1
        | none => acc1)
    []

/-- One attempted match of `([A-Za-z_][A-Za-z0-9_]*)\s*\.\s*([A-Za-z_][A-Za-z0-9_]*)`
at the current position (leading `\b` checked by the caller; the trailing `\b`
always holds after a maximal word-character run). -/
def matchDottedRef (s : Str) : Option ((Str × Str) × Nat) :=
  match s with
  | [] => none
  | c :: cs =>
    if identStartChar c then
      let left := c :: cs.takeWhile wordChar
      let r0 := s.drop left.length
      let ws1 := r0.takeWhile pySpace
      match r0.drop ws1.length with
      | '.' :: r2 =>
        let ws2 := r2.takeWhile pySpace
        match r2.drop ws2.length with
        | d :: ds =>
          if identStartChar d then
            let right := d :: ds.takeWhile wordChar
            some ((left, right), left.length + ws1.length + 1 + ws2.length + right.length)
          else none
        | [] => none
      | _ => none
    else none

/-- Left-to-right non-overlapping scan with the dotted-column pattern. -/
def scanDottedRefs : Nat → Bool → Str → List (Str × Str)
  | 0, _, _ => []
  | _ + 1, _, [] => []
  | fuel + 1, prevW, c :: cs =>
    match (if prevW then none else matchDottedRef (c :: cs)) with
    | some (pair, consumed) => pair :: scanDottedRefs fuel true ((c :: cs).drop consumed)
    | none => scanDottedRefs fuel (wordChar c) cs

/-- `_extract_dotted_columns` of `src/agent/sql_llm_generator.py` (lines
106–109). -/
def extract_dotted_columns (sql : Str) : List (Str × Str) :=
  scanDottedRefs (sql.length + 1) false sql

/-- The per-reference test of the `_assert_allowlisted_columns` loop: resolve
the qualifier through the alias map (defaulting to itself) and flag the
reference when the table is unknown or the column is not in its column set. -/
def columnRefDisallowed (allowedCols : List (Str × List Str)) (aliases : List (Str × Str))
    (p : Str × Str) : Bool :=
  match dget allowedCols ((dget aliases p.1).getD p.1) with
  | none => true
  | some cols => !(cols.contains p.2)

/-- `_assert_allowlisted_columns` of `src/agent/sql_llm_generator.py` (lines
112–126).  The raised `RuntimeError` is modelled as an error carrying the
offending `(qualifier, column)` references. -/
def assert_allowlisted_columns (sql : Str) (md : Option SchemaMetadata) :
    Except (List (Str × Str)) Unit :=
  let allowedCols := allowed_columns_map md
  if allowedCols = [] then .ok ()
  else
    let disallowed := (extract_dotted_columns sql).filter
      (columnRefDisallowed allowedCols (extract_table_aliases sql))
    if disallowed = [] then .ok () else .error disallowed

/-- The errors produced by the validation tail of `generate_sql_from_plan`. -/
inductive DraftCheckErr
  | unsafeSql (e : Executor.GuardErr)
  | tablesNotAllowed (ts : List Str)
  | columnsNotAllowed (cs : List (Str × Str))
deriving DecidableEq

/-- The validation tail of `generate_sql_from_plan` (lines 220–223 of
`src/agent/sql_llm_generator.py`): guardrail first, then the two allow-list
checks on the guarded SQL. -/
def checkDraftedSql (sql : Str) (md : Option SchemaMetadata) :
    Except DraftCheckErr Str :=
  match Executor.validate_sql sql with
  | .error e => .error (.unsafeSql e)
  | .ok safe =>
    match assert_allowlisted_tables safe md with
    | .error ts => .error (.tablesNotAllowed ts)
    | .ok _ =>
      match assert_allowlisted_columns safe md with
      | .error cs => .error (.columnsNotAllowed cs)
      | .ok _ => .ok safe

example :
    extract_tables_from_sql "select * from internal_audit".data
      = ["internal_audit".data] := by decide

example :
    extract_tables_from_sql "select * from records r join dim_customer c on c.id = r.cid".data
      = ["records".data, "dim_customer".data] := by decide

example :
    extract_tables_from_sql "select * from public.records".data = ["records".data] := by decide

example :
    extract_table_aliases "select * from records r join dim_customer on 1=1".data
      = dinsert "on".data "dim_customer".data
          (dinsert "dim_customer".data "dim_customer".data
            (dinsert "r".data "records".data
              (dinsert "records".data "records".data []))) := by decide

example :
    extract_dotted_columns "select c.id, r.cid from t".data
      = [("c".data, "id".data), ("r".data, "cid".data)] := by decide

example :
    extract_table_aliases "select * from orders as o".data
      = dinsert "o".data "orders".data (dinsert "orders".data "orders".data []) := by decide

example :
    extract_tables_from_sql "SELECT * FROM sch.tab AS t WHERE t.c = 1".data
      = ["tab".data] := by decide

example : extract_tables_from_sql "join j1 join j2".data = ["j1".data, "j2".data] := by decide

example : extract_tables_from_sql "afrom t".data = [] := by decide

example : extract_tables_from_sql "from (select 1) x".data = [] := by decide

example : extract_tables_from_sql "from t.".data = [[]] := by decide

example :
    scanAliasRefs 40 false "select * from a join b on a.x = b.y".data
      = [("a".data, some "join".data)] := by decide

example :
    scanAliasRefs 20 false "from t as".data = [("t".data, some "as".data)] := by decide

example :
    scanAliasRefs 20 false "from t ass".data = [("t".data, some "ass".data)] := by decide

example :
    scanAliasRefs 20 false "from t  ".data = [("t".data, none)] := by decide

example :
    scanAliasRefs 40 false "select x from t where 1a.b = 2".data
      = [("t".data, some "where".data)] := by decide

example : extract_dotted_columns "select a.b.c from t".data = [("a".data, "b".data)] := by decide

example : extract_dotted_columns "a . b".data = [("a".data, "b".data)] := by decide

example : extract_dotted_columns "select x from t where 1a.b = 2".data = [] := by decide

end SqlLlmGenerator

/-- A metadata record with no tables at all (its known table set is empty). -/
def emptyMetadata : SchemaMetadata := ⟨[], [], [], [], []⟩

/-- C2 (amended): when the known table set (resp. known column map) is
non-empty, allow-list enforcement rejects the drafted SQL whenever some
identifier following `from`/`join` names an unknown table, and whenever some
dotted reference resolves (via the alias map) to an unknown table or to a
column outside that table's column set. -/
theorem c2_allowlist_rejects (sql : Str) (md : Option SchemaMetadata) :
    (SqlLlmGenerator.allowed_table_set md ≠ [] →
      ∀ t ∈ SqlLlmGenerator.extract_tables_from_sql sql,
        (SqlLlmGenerator.allowed_table_set md).contains t = false →
        ∃ ts, SqlLlmGenerator.assert_allowlisted_tables sql md = .error ts ∧ t ∈ ts) ∧
    (SqlLlmGenerator.allowed_columns_map md ≠ [] →
      ∀ p ∈ SqlLlmGenerator.extract_dotted_columns sql,
        SqlLlmGenerator.columnRefDisallowed (SqlLlmGenerator.allowed_columns_map md)
          (SqlLlmGenerator.extract_table_aliases sql) p = true →
        ∃ cs, SqlLlmGenerator.assert_allowlisted_columns sql md = .error cs ∧ p ∈ cs) := by
  constructor
  · intro hne t ht hbad
    unfold SqlLlmGenerator.assert_allowlisted_tables
    rw [if_neg hne]
    have hmemf : t ∈ (SqlLlmGenerator.extract_tables_from_sql sql).filter
        (fun t => !((SqlLlmGenerator.allowed_table_set md).contains t)) :=
      List.mem_filter.mpr ⟨ht, by rw [hbad]; rfl⟩
    rw [if_neg (List.ne_nil_of_mem hmemf)]
    exact ⟨_, rfl, hmemf⟩
  · intro hne p hp hbad
    unfold SqlLlmGenerator.assert_allowlisted_columns
    rw [if_neg hne]
    have hmemf : p ∈ (SqlLlmGenerator.extract_dotted_columns sql).filter
        (SqlLlmGenerator.columnRefDisallowed (SqlLlmGenerator.allowed_columns_map md)
          (SqlLlmGenerator.extract_table_aliases sql)) :=
      List.mem_filter.mpr ⟨hp, hbad⟩
    rw [if_neg (List.ne_nil_of_mem hmemf)]
    exact ⟨_, rfl, hmemf⟩

/-- The end-to-end scenario metadata of the claim: known tables are only
`records` and `dim_customer`. -/
def scenarioMetadata : SchemaMetadata :=
  { tables :=
      [⟨"records".data, [⟨"id".data⟩, ⟨"amount".data⟩, ⟨"event_date".data⟩]⟩,
       ⟨"dim_customer".data, [⟨"customer_id".data⟩, ⟨"country".data⟩]⟩],
    entities := [], measures := [], time_columns := [], relationships := [] }

/-- C2 witness: a drafted query referencing table `internal_audit` is rejected
when the known tables are only `{records, dim_customer}`; a drafted query
referencing an unknown column `records.secret` is likewise rejected. -/
theorem c2_witness :
    (∃ ts, SqlLlmGenerator.assert_allowlisted_tables
        "select * from internal_audit".data (some scenarioMetadata) = .error ts ∧
        "internal_audit".data ∈ ts) ∧
    (∃ cs, SqlLlmGenerator.assert_allowlisted_columns
        "select r.secret from records r".data (some scenarioMetadata) = .error cs ∧
        ("r".data, "secret".data) ∈ cs) := by
  constructor
  · exact (c2_allowlist_rejects "select * from internal_audit".data (some scenarioMetadata)).1
      (by decide) ("internal_audit".data) (by decide) (by decide)
  · exact (c2_allowlist_rejects "select r.secret from records r".data (some scenarioMetadata)).2
      (by decide) (("r".data, "secret".data)) (by decide) (by decide)

/-- C2 counterexample: the claim quantifies over every `SchemaMetadata`, but
with a metadata whose known table set is empty the enforcement returns without
examining the SQL, so a query referencing a table outside the (empty) known
table set is accepted rather than rejected. -/
theorem c2_counterexample :
    "internal_audit".data ∈
      SqlLlmGenerator.extract_tables_from_sql "select * from internal_audit".data ∧
    SqlLlmGenerator.allowed_table_set (some emptyMetadata) = [] ∧
    SqlLlmGenerator.assert_allowlisted_tables
      "select * from internal_audit".data (some emptyMetadata) = .ok () := by decide

/-- Auxiliary: the column-map fold stays empty when every table name strips to
the empty string. -/
theorem colsFoldNil (ts : List TableMeta)
    (hall : ∀ t ∈ ts, pyStrip t.table_name = []) :
    ts.foldl
      (fun acc t =>
        if pyStrip t.table_name = [] then acc
        else
          dinsert (pyStrip t.table_name)
            (t.columns.filterMap
              (fun c => if c.column_name ≠ [] then some (pyStrip c.column_name) else none))
            acc)
      [] = [] := by
  induction ts with
  | nil => rfl
  | cons t ts ih =>
    have h0 : pyStrip t.table_name = [] := hall t (by simp)
    rw [List.foldl_cons, if_pos h0]
    exact ih (fun u hu => hall u (by simp [hu]))

/-- When no table has a (truthy) name, the allowed-columns map is empty too. -/
theorem allowed_columns_map_eq_nil (md : Option SchemaMetadata)
    (h : SqlLlmGenerator.allowed_table_set md = []) :
    SqlLlmGenerator.allowed_columns_map md = [] := by
  cases md with
  | none => rfl
  | some m =>
    simp only [SqlLlmGenerator.allowed_table_set] at h
    rw [List.filterMap_eq_nil_iff] at h
    have hall : ∀ t ∈ m.tables, pyStrip t.table_name = [] := by
      intro t ht
      have ht2 := h t ht
      by_cases hne : t.table_name = []
      · rw [hne]; rfl
      · simp [hne] at ht2
    simp only [SqlLlmGenerator.allowed_columns_map]
    exact colsFoldNil m.tables hall

/-- C10: with `None` metadata or metadata whose table list yields no named
tables, both allow-list checks pass unconditionally, and the validation tail of
`generate_sql_from_plan` reduces to the textual guardrail alone. -/
theorem c10_empty_allowlist_bypass (sql : Str) (md : Option SchemaMetadata)
    (h : SqlLlmGenerator.allowed_table_set md = []) :
    SqlLlmGenerator.assert_allowlisted_tables sql md = .ok () ∧
    SqlLlmGenerator.assert_allowlisted_columns sql md = .ok () ∧
    SqlLlmGenerator.checkDraftedSql sql md
      = (Executor.validate_sql sql).mapError SqlLlmGenerator.DraftCheckErr.unsafeSql := by
  have hcols := allowed_columns_map_eq_nil md h
  have h1 : ∀ q : Str, SqlLlmGenerator.assert_allowlisted_tables q md = .ok () := by
    intro q
    unfold SqlLlmGenerator.assert_allowlisted_tables
    rw [if_pos h]
  have h2 : ∀ q : Str, SqlLlmGenerator.assert_allowlisted_columns q md = .ok () := by
    intro q
    unfold SqlLlmGenerator.assert_allowlisted_columns
    rw [if_pos hcols]
  refine ⟨h1 sql, h2 sql, ?_⟩
  cases hv : Executor.validate_sql sql with
  | error e => simp [SqlLlmGenerator.checkDraftedSql, hv, Except.mapError]
  | ok safe => simp [SqlLlmGenerator.checkDraftedSql, hv, h1, h2, Except.mapError]

/-- C10 witness: with the no-tables metadata, a syntactically safe query over
an arbitrary unknown table and column is accepted, constrained only by the
guardrail. -/
theorem c10_witness :
    SqlLlmGenerator.assert_allowlisted_tables
      "select t.x from anywhere t".data (some emptyMetadata) = .ok () ∧
    SqlLlmGenerator.assert_allowlisted_columns
      "select t.x from anywhere t".data (some emptyMetadata) = .ok () ∧
    SqlLlmGenerator.checkDraftedSql "select t.x from anywhere t".data (some emptyMetadata)
      = (Executor.validate_sql "select t.x from anywhere t".data).mapError
          SqlLlmGenerator.DraftCheckErr.unsafeSql :=
  c10_empty_allowlist_bypass "select t.x from anywhere t".data (some emptyMetadata) (by decide)

namespace SqlGenerator

/-- `re.fullmatch(r"[A-Za-z_][A-Za-z0-9_]*", name)` as a Boolean test. -/
def matchesIdent : Str → Bool
  | [] => false
  | c :: cs => identStartChar c && cs.all wordChar

/-- `_safe_ident` of `src/agent/sql_generator.py` (lines 56–59): raise
`ValueError` for any name not matching the identifier pattern, else wrap it in
double quotes.  The error carries the offending name. -/
def safe_ident (name : Str) : Except Str Str :=
  if matchesIdent name then .ok ('\"' :: name ++ ['\"'])
  else .error name

end SqlGenerator

namespace FeatureBuilder

/-- `_safe_ident` of `src/mining/feature_builder.py` (lines 19–20): remove all
embedded double quotes, then wrap in double quotes; it never fails. -/
def safe_ident (name : Str) : Str :=
  '\"' :: (name.filter (fun c => !(c == '\"'))) ++ ['\"']

end FeatureBuilder

/-- C5 (amended): the agent SQL generator's `_safe_ident` quotes identifiers
matching `[A-Za-z_][A-Za-z0-9_]*` and raises a building error on all others;
the mining feature builder's `_safe_ident` never raises — it accepts any name,
but always emits a double-quoted identifier whose interior contains no double
quote, so the name cannot escape its quoting. -/
theorem c5_safe_ident_quoting (name : Str) :
    (SqlGenerator.matchesIdent name = true →
      SqlGenerator.safe_ident name = .ok ('\"' :: name ++ ['\"'])) ∧
    (SqlGenerator.matchesIdent name = false →
      ∀ out, ¬ SqlGenerator.safe_ident name = .ok out) ∧
    (∃ body, FeatureBuilder.safe_ident name = '\"' :: body ++ ['\"'] ∧
      ∀ c ∈ body, ¬ c = '\"') := by
  refine ⟨?_, ?_, ?_⟩
  · intro h
    unfold SqlGenerator.safe_ident
    rw [if_pos h]
  · intro h out
    unfold SqlGenerator.safe_ident
    rw [if_neg (by rw [h]; exact Bool.false_ne_true)]
    intro hc
    cases hc
  · refine ⟨name.filter (fun c => !(c == '\"')), rfl, ?_⟩
    intro c hc
    have := (List.mem_filter.mp hc).2
    simpa using this

/-- C5 counterexample: the identifier `"my col"` does not match
`[A-Za-z_][A-Za-z0-9_]*`, yet the feature builder's `_safe_ident` interpolates
it into rendered SQL (quoted) without any building error, refuting the claim
that every non-matching identifier causes a building error. -/
theorem c5_counterexample :
    SqlGenerator.matchesIdent "my col".data = false ∧
    FeatureBuilder.safe_ident "my col".data = "\"my col\"".data := by decide

/-- C5 witness at the identifier `amount`. -/
theorem c5_witness :
    SqlGenerator.safe_ident "amount".data = .ok ('\"' :: "amount".data ++ ['\"']) ∧
    (∃ body, FeatureBuilder.safe_ident "amount".data = '\"' :: body ++ ['\"'] ∧
      ∀ c ∈ body, ¬ c = '\"') :=
  ⟨(c5_safe_ident_quoting "amount".data).1 (by decide),
   (c5_safe_ident_quoting "amount".data).2.2⟩

/-- The `Plan` dataclass of `src/agent/planner.py` (lines 11–23). -/
structure Plan where
  question : Str
  requires_mining : Bool
  intent : Str
  planner_source : Str
  task_type : Str
  entity_scope : Str
  entity_dimension : Option Str
  n : Option Int
  metric : Option Str
  time_grain : Option Str
  compare_against : Option Str
deriving DecidableEq

/-- Python `s or dflt` for strings: the default replaces an empty string. -/
def pyOrS (s : Str) (dflt : Str) : Str := if s = [] then dflt else s

/-- Python `s or dflt` for optional strings: the default replaces `None` and
the empty string. -/
def pyOr (s : Option Str) (dflt : Str) : Str :=
  match s with
  | none => dflt
  | some v => pyOrS v dflt

namespace SqlRenderer

/-- The `SQLDialect` dataclass of `src/adapters/sql_renderer.py`. -/
structure SQLDialect where
  engine : Str
  limit_placeholder : Str
deriving DecidableEq

/-- `SQLDialect.render_date_bucket` of `src/adapters/sql_renderer.py`
(lines 11–29). -/
def render_date_bucket (d : SQLDialect) (column_expr : Str) (time_grain : Str) : Str :=
  let grain := pyLower (pyOrS time_grain "month".data)
  if d.engine = "postgres".data ∨ d.engine = "postgresql".data then
    let g := if ["day".data, "week".data, "month".data, "quarter".data,
                 "year".data].contains grain then grain else "month".data
    "date_trunc('".data ++ g ++ "', ".data ++ column_expr ++ ")::date".data
  else if d.engine = "sqlite".data then
    if grain = "year".data then
      "date(strftime('%Y-01-01', ".data ++ column_expr ++ "))".data
    else if grain = "day".data then
      "date(".data ++ column_expr ++ ")".data
    else
      "date(strftime('%Y-%m-01', ".data ++ column_expr ++ "))".data
  else if d.engine = "mysql".data then
    if grain = "year".data then
      "str_to_date(concat(year(".data ++ column_expr ++ "), '-01-01'), '%Y-%m-%d')".data
    else if grain = "day".data then
      "date(".data ++ column_expr ++ ")".data
    else
      "str_to_date(date_format(".data ++ column_expr ++ ", '%Y-%m-01'), '%Y-%m-%d')".data
  else column_expr

/-- `get_sql_dialect` of `src/adapters/sql_renderer.py` (lines 32–40). -/
def get_sql_dialect (db_engine : Str) : SQLDialect :=
  let engine := pyLower (pyStrip (pyOrS db_engine "postgres".data))
  if engine = "postgres".data ∨ engine = "postgresql".data then
    ⟨"postgres".data, "%s".data⟩
  else if engine = "sqlite".data then ⟨"sqlite".data, "?".data⟩
  else if engine = "mysql".data then ⟨"mysql".data, "%s".data⟩
  else ⟨engine, "%s".data⟩

end SqlRenderer

namespace FeatureBuilder

/-- The `FeatureBuildResult` dataclass of `src/mining/feature_builder.py`
(lines 11–16).  Row payloads are irrelevant to the builder (it always returns
an empty list), so rows are abstracted to an opaque count-style list. -/
structure FeatureBuildResult where
  status : Str
  reason : Option Str
  sql : Option Str
  rows : List Nat
deriving DecidableEq

/-- An `insufficient_data` result: a human-readable reason and no SQL. -/
def insufficientResult (reason : Str) : FeatureBuildResult :=
  ⟨"insufficient_data".data, some reason, none, []⟩

/-- `_find_candidate` of `src/mining/feature_builder.py` (lines 23–38). -/
def find_candidate (items : List CandidateCol) (keyword : Option Str)
    (fallback_keywords : List Str) : Option CandidateCol :=
  match items with
  | [] => none
  | first :: _ =>
    let lowered_kw := pyLower (pyStrip (keyword.getD []))
    let exactOrContains : Option CandidateCol :=
      if lowered_kw ≠ [] then
        match items.filter (fun i => lowered_kw == pyLower i.column) with
        | e :: _ => some e
        | [] =>
          match items.filter (fun i => hasSub lowered_kw (pyLower i.column)) with
          | c :: _ => some c
          | [] => none
      else none
    match exactOrContains with
    | some e => some e
    | none =>
      match fallback_keywords.findSome? (fun kw =>
        match items.filter (fun i => hasSub kw (pyLower i.column)) with
        | m :: _ => some m
        | [] => none) with
      | some m => some m
      | none => some first

/-- `_find_relationship` of `src/mining/feature_builder.py` (lines 41–47):
first relationship row connecting the two tables, matched in either
direction; the returned pair is oriented (left-table column, right-table
column). -/
def find_relationship (relationships : List Relationship)
    (left_table right_table : Str) : Option (Str × Str) :=
  relationships.findSome? (fun rel =>
    if rel.from_table = left_table ∧ rel.to_table = right_table then
      some (rel.from_column, rel.to_column)
    else if rel.from_table = right_table ∧ rel.to_table = left_table then
      some (rel.to_column, rel.from_column)
    else none)

/-- `_date_trunc_expr` of `src/mining/feature_builder.py` (lines 50–52). -/
def date_trunc_expr (db_engine : Str) (column : Str) (time_grain : Option Str) : Str :=
  SqlRenderer.render_date_bucket (SqlRenderer.get_sql_dialect db_engine) column
    (pyOr time_grain "month".data)

/-- Measure fallback keywords of `_build_trend_sql`/`_build_segmentation_sql`. -/
def measure_fallbacks : List Str :=
  ["amount".data, "revenue".data, "total".data, "price".data, "value".data,
   "score".data, "sales".data]

/-- Time-column fallback keywords of `_build_trend_sql`/`_build_segmentation_sql`. -/
def time_fallbacks : List Str :=
  ["date".data, "time".data, "created".data, "updated".data, "timestamp".data]

/-- Entity fallback keywords of `_build_trend_sql`. -/
def trend_entity_fallbacks : List Str :=
  ["country".data, "customer".data, "product".data, "category".data,
   "segment".data, "region".data, "name".data]

/-- Entity fallback keywords of `_build_segmentation_sql`. -/
def segmentation_entity_fallbacks : List Str :=
  ["customer".data, "account".data, "user".data, "student".data,
   "country".data, "product".data, "name".data, "id".data]

/-- The stripped two-stage top-N trend template of `_build_trend_sql`
(lines 115–136), with the interpolation holes as arguments. -/
def trendTopNSql (period_expr entity_select value_expr m_table_ident join_clause n_text : Str) :
    Str :=
  "WITH base AS (\n                SELECT ".data ++ period_expr ++
  " AS period_start,\n                       ".data ++ entity_select ++
  ",\n                       ".data ++ value_expr ++
  " AS metric_value\n                FROM ".data ++ m_table_ident ++
  " f\n                ".data ++ join_clause ++
  "\n                GROUP BY 1, 2\n            ),\n            top_entities AS (\n                SELECT entity_key\n                FROM base\n                GROUP BY entity_key\n                ORDER BY SUM(metric_value) DESC\n                LIMIT ".data ++
  n_text ++
  "\n            )\n            SELECT b.period_start, b.entity_key, ROUND(SUM(b.metric_value), 4) AS metric_value\n            FROM base b\n            JOIN top_entities t ON t.entity_key = b.entity_key\n            GROUP BY 1, 2\n            ORDER BY 1, 3 DESC".data

/-- The stripped simple trend template of `_build_trend_sql` (lines 138–144). -/
def trendSimpleSql (period_expr value_expr m_table_ident : Str) : Str :=
  "SELECT ".data ++ period_expr ++
  " AS period_start,\n                   ROUND(".data ++ value_expr ++
  ", 4) AS metric_value\n            FROM ".data ++ m_table_ident ++
  " f\n            GROUP BY 1\n            ORDER BY 1".data

/-- `_build_trend_sql` of `src/mining/feature_builder.py` (lines 55–146). -/
def build_trend_sql (plan : Plan) (metadata : SchemaMetadata) (db_engine : Str) :
    FeatureBuildResult :=
  match find_candidate metadata.measures plan.metric measure_fallbacks,
        find_candidate metadata.time_columns none time_fallbacks with
  | none, _ =>
    insufficientResult "No suitable measure/time columns found in semantic map.".data
  | some _, none =>
    insufficientResult "No suitable measure/time columns found in semantic map.".data
  | some measure, some time_col =>
    if measure.table ≠ time_col.table then
      insufficientResult
        "Measure and time columns are on different tables; join inference for trend is not available yet.".data
    else
      let period_expr :=
        date_trunc_expr db_engine ("f.".data ++ safe_ident time_col.column) plan.time_grain
      let value_expr := "SUM(f.".data ++ safe_ident measure.column ++ ")".data
      match (if plan.entity_scope = "top_n".data then
               find_candidate metadata.entities plan.entity_dimension trend_entity_fallbacks
             else none) with
      | some entity =>
        if entity.table ≠ measure.table then
          match find_relationship metadata.relationships measure.table entity.table with
          | none =>
            insufficientResult
              "Top-N entity requested but relationship to measure table was not found.".data
          | some (left_col, right_col) =>
            let entity_select := "e.".data ++ safe_ident entity.column ++ " AS entity_key".data
            let join_clause :=
              "JOIN ".data ++ safe_ident entity.table ++ " e ON f.".data ++
                safe_ident left_col ++ " = e.".data ++ safe_ident right_col
            let n : Int := match plan.n with | none => 5 | some k => if k = 0 then 5 else k
            ⟨"ok".data, none,
             some (trendTopNSql period_expr entity_select value_expr
               (safe_ident measure.table) join_clause (toString n).data), []⟩
        else
          let entity_select := "f.".data ++ safe_ident entity.column ++ " AS entity_key".data
          let n : Int := match plan.n with | none => 5 | some k => if k = 0 then 5 else k
          ⟨"ok".data, none,
           some (trendTopNSql period_expr entity_select value_expr
             (safe_ident measure.table) [] (toString n).data), []⟩
      | none =>
        ⟨"ok".data, none,
         some (trendSimpleSql period_expr value_expr (safe_ident measure.table)), []⟩

/-- The stripped Postgres segmentation template of `_build_segmentation_sql`
(lines 199–221). -/
def segmentationPgSql (entity_expr recency_expr m_col_ident m_table_ident join_clause : Str) :
    Str :=
  "WITH entity_rollup AS (\n                SELECT\n                    ".data ++ entity_expr ++
  " AS entity_id,\n                    ".data ++ recency_expr ++
  " AS latest_event_date,\n                    COUNT(*)::int AS frequency,\n                    ROUND(SUM(f.".data ++
  m_col_ident ++
  "), 4) AS monetary\n                FROM ".data ++ m_table_ident ++
  " f\n                ".data ++ join_clause ++
  "\n                GROUP BY 1\n            ),\n            ref AS (\n                SELECT MAX(latest_event_date) AS ref_date FROM entity_rollup\n            )\n            SELECT\n                er.entity_id,\n                (ref.ref_date - er.latest_event_date)::int AS recency_days,\n                er.frequency,\n                er.monetary\n            FROM entity_rollup er\n            CROSS JOIN ref\n            ORDER BY er.entity_id".data

/-- The stripped generic segmentation template of `_build_segmentation_sql`
(lines 224–234). -/
def segmentationGenericSql (entity_expr t_col_ident m_col_ident m_table_ident join_clause : Str) :
    Str :=
  "SELECT\n                ".data ++ entity_expr ++
  " AS entity_id,\n                MAX(f.".data ++ t_col_ident ++
  ") AS latest_event_date,\n                COUNT(*) AS frequency,\n                ROUND(SUM(f.".data ++
  m_col_ident ++
  "), 4) AS monetary\n            FROM ".data ++ m_table_ident ++
  " f\n            ".data ++ join_clause ++
  "\n            GROUP BY 1\n            ORDER BY 1".data

/-- `_build_segmentation_sql` of `src/mining/feature_builder.py` (lines
149–236). -/
def build_segmentation_sql (plan : Plan) (metadata : SchemaMetadata) (db_engine : Str) :
    FeatureBuildResult :=
  match find_candidate metadata.measures plan.metric measure_fallbacks,
        find_candidate metadata.time_columns none time_fallbacks,
        find_candidate metadata.entities plan.entity_dimension segmentation_entity_fallbacks with
  | none, _, _ =>
    insufficientResult "No suitable entity/measure/time columns found in semantic map.".data
  | some _, none, _ =>
    insufficientResult "No suitable entity/measure/time columns found in semantic map.".data
  | some _, some _, none =>
    insufficientResult "No suitable entity/measure/time columns found in semantic map.".data
  | some measure, some time_col, some entity =>
    if measure.table ≠ time_col.table then
      insufficientResult
        "Measure and time columns are on different tables; segmentation join inference unavailable.".data
    else
      let withEntity : Option (Str × Str) :=
        if entity.table ≠ measure.table then
          match find_relationship metadata.relationships measure.table entity.table with
          | none => none
          | some (left_col, right_col) =>
            some ("e.".data ++ safe_ident entity.column,
              "JOIN ".data ++ safe_ident entity.table ++ " e ON f.".data ++
                safe_ident left_col ++ " = e.".data ++ safe_ident right_col)
        else some ("f.".data ++ safe_ident entity.column, [])
      match withEntity with
      | none =>
        insufficientResult
          "Entity relationship to measure table was not found for segmentation.".data
      | some (entity_expr, join_clause) =>
        if db_engine = "postgres".data ∨ db_engine = "postgresql".data then
          ⟨"ok".data, none,
           some (segmentationPgSql entity_expr
             ("(MAX(f.".data ++ safe_ident time_col.column ++ ")::date)".data)
             (safe_ident measure.column) (safe_ident measure.table) join_clause), []⟩
        else
          ⟨"ok".data, none,
           some (segmentationGenericSql entity_expr (safe_ident time_col.column)
             (safe_ident measure.column) (safe_ident measure.table) join_clause), []⟩

/-- The task-routing and status-propagation part of `feature_builder`
(lines 239–256 of `src/mining/feature_builder.py`); the execution of an `ok`
SQL against the database is an external effect outside this model. -/
def feature_builder_spec (schema_metadata : SchemaMetadata) (plan : Plan)
    (db_engine : Str) : FeatureBuildResult :=
  if plan.task_type = "trend_analysis".data then
    build_trend_sql plan schema_metadata db_engine
  else if plan.task_type = "segmentation".data then
    build_segmentation_sql plan schema_metadata db_engine
  else
    ⟨"unsupported_task".data,
     some ("feature_builder does not support task_type=".data ++ plan.task_type), none, []⟩

end FeatureBuilder

/-- C6: for a `trend_analysis` plan, whenever the selected measure and time
columns live on different tables — or, for a `top_n` scope, the selected
entity lives on a different table than the measure and no relationship row
connects the two tables — the builder returns `insufficient_data` with a
human-readable reason and no SQL (so no table, column or join is fabricated). -/
theorem c6_trend_insufficient (plan : Plan) (md : SchemaMetadata) (db_engine : Str)
    (htask : plan.task_type = "trend_analysis".data) :
    (∀ m t, FeatureBuilder.find_candidate md.measures plan.metric
        FeatureBuilder.measure_fallbacks = some m →
      FeatureBuilder.find_candidate md.time_columns none
        FeatureBuilder.time_fallbacks = some t →
      m.table ≠ t.table →
      FeatureBuilder.feature_builder_spec md plan db_engine
        = ⟨"insufficient_data".data,
           some "Measure and time columns are on different tables; join inference for trend is not available yet.".data,
           none, []⟩) ∧
    (∀ m t e, FeatureBuilder.find_candidate md.measures plan.metric
        FeatureBuilder.measure_fallbacks = some m →
      FeatureBuilder.find_candidate md.time_columns none
        FeatureBuilder.time_fallbacks = some t →
      m.table = t.table →
      plan.entity_scope = "top_n".data →
      FeatureBuilder.find_candidate md.entities plan.entity_dimension
        FeatureBuilder.trend_entity_fallbacks = some e →
      e.table ≠ m.table →
      FeatureBuilder.find_relationship md.relationships m.table e.table = none →
      FeatureBuilder.feature_builder_spec md plan db_engine
        = ⟨"insufficient_data".data,
           some "Top-N entity requested but relationship to measure table was not found.".data,
           none, []⟩) := by
  constructor
  · intro m t hm ht hne
    simp only [FeatureBuilder.feature_builder_spec, htask, if_true, if_pos,
      FeatureBuilder.build_trend_sql, hm, ht]
    rw [if_pos hne]
    rfl
  · intro m t e hm ht hsame hscope hent hneq hrel
    simp only [FeatureBuilder.feature_builder_spec, htask, if_true, if_pos,
      FeatureBuilder.build_trend_sql, hm, ht, hscope, hent, hrel]
    rw [if_neg (fun hcon => hcon hsame)]
    simp [hscope, hent, hrel, hneq, FeatureBuilder.insufficientResult]

/-- A plan asking for an overall trend (scenario for the first part of C6). -/
def trendPlanAll : Plan :=
  ⟨"monthly trend".data, true, "trend_analysis".data, "heuristic".data,
   "trend_analysis".data, "all".data, none, none, none, some "month".data,
   some "none".data⟩

/-- Metadata whose only measure and only time column live on different tables. -/
def trendSplitMetadata : SchemaMetadata :=
  ⟨[], [], [⟨"fact_sales".data, "amount".data⟩],
   [⟨"dim_dates".data, "event_date".data⟩], []⟩

/-- A `top_n` trend plan over the `country` dimension (scenario for the second
part of C6). -/
def trendPlanTopN : Plan :=
  ⟨"top countries trend".data, true, "trend_analysis".data, "heuristic".data,
   "trend_analysis".data, "top_n".data, some "country".data, some 5, none,
   some "month".data, some "none".data⟩

/-- Metadata where the entity lives on a different table than the measure and
no relationship row connects the two tables. -/
def trendNoRelMetadata : SchemaMetadata :=
  ⟨[], [⟨"dim_customer".data, "country".data⟩],
   [⟨"fact_sales".data, "amount".data⟩],
   [⟨"fact_sales".data, "event_date".data⟩], []⟩

/-- C6 witness: both `insufficient_data` scenarios at concrete inputs. -/
theorem c6_witness :
    FeatureBuilder.feature_builder_spec trendSplitMetadata trendPlanAll "postgres".data
      = ⟨"insufficient_data".data,
         some "Measure and time columns are on different tables; join inference for trend is not available yet.".data,
         none, []⟩ ∧
    FeatureBuilder.feature_builder_spec trendNoRelMetadata trendPlanTopN "postgres".data
      = ⟨"insufficient_data".data,
         some "Top-N entity requested but relationship to measure table was not found.".data,
         none, []⟩ := by
  constructor
  · exact (c6_trend_insufficient trendPlanAll trendSplitMetadata "postgres".data (by decide)).1
      ⟨"fact_sales".data, "amount".data⟩ ⟨"dim_dates".data, "event_date".data⟩
      (by decide) (by decide) (by decide)
  · exact (c6_trend_insufficient trendPlanTopN trendNoRelMetadata "postgres".data (by decide)).2
      ⟨"fact_sales".data, "amount".data⟩ ⟨"fact_sales".data, "event_date".data⟩
      ⟨"dim_customer".data, "country".data⟩
      (by decide) (by decide) (by decide) (by decide) (by decide) (by decide) (by decide)

namespace Evaluator

/-- The two outcomes of `evaluate_result` of `src/agent/evaluator.py`. -/
inductive EvalStatus
  | ok
  | retry
deriving DecidableEq

/-- `evaluate_result` of `src/agent/evaluator.py` (lines 4–7): an empty result
set is `retry` (reason `query_returned_no_rows`), a non-empty one is `ok`. -/
def evaluate_result (rows : List Nat) : EvalStatus :=
  if rows = [] then .retry else .ok

end Evaluator

namespace Routes

/-- An exception raised by drafting (`generate_sql_from_plan`) or execution
(`execute_safe_query`): the guardrail's `UnsafeSQLError` or any other error. -/
inductive AppErr
  | unsafeSql (msg : Str)
  | otherErr (msg : Str)
deriving DecidableEq

/-- The request-specific oracles of one `_run_analyze` call: `draft k` is the
result of the `generate_sql_from_plan` call made when `repair_attempt = k`
(`k = 0` is the initial generation) and `exec i sql` is the result of the
`i`-th `execute_safe_query` call (0-based) on `sql`.  Row payloads are
abstracted to opaque values. -/
structure Orc where
  draft : Nat → Except AppErr Str
  exec : Nat → Str → Except AppErr (List Nat)

/-- Outcome of the repair loop: a normal completion carrying the standing rows
and evaluation, or an exception propagating to the outer handlers.  Each
outcome records the number of executions performed and the repair attempts
consumed (`retries_used`). -/
inductive Outcome
  | finished (rows : List Nat) (eval : Evaluator.EvalStatus) (execs retries : Nat)
  | raised (e : AppErr) (execs retries : Nat)
  | fuelOut
deriving DecidableEq

/-- The `while True` repair loop of `_run_analyze` (`src/api/routes.py` lines
231–299).  The fuel argument only bounds the iteration count; every iteration
strictly increases `attempt`, so `maxRepairs + 1` always suffices and
`fuelOut` is unreachable from the entry points below.  Behaviour mirrored from
the source:
- a successful execution is evaluated; an empty result with budget remaining
  increments `repair_attempt` and regenerates inside the `try`, so a failing
  regeneration there is caught by the loop's own `except` clause (which
  re-raises when the budget is already consumed and otherwise increments and
  regenerates once more);
- an execution exception with the budget consumed is re-raised unchanged;
  otherwise `repair_attempt` is incremented and the SQL regenerated, any
  exception of that regeneration propagating out of the loop unchanged;
- the `except (UnsafeSQLError, Exception)` clause catches `UnsafeSQLError`
  like any other exception. -/
def analyzeLoop (o : Orc) (maxRepairs : Nat) :
    Nat → Str → Nat → Nat → Outcome
  | 0, _, _, _ => .fuelOut
  | fuel + 1, sql, attempt, execs =>
    match o.exec execs sql with
    | .ok rows =>
      if Evaluator.evaluate_result rows = .retry ∧ attempt < maxRepairs then
        match o.draft (attempt + 1) with
        | .ok sql2 => analyzeLoop o maxRepairs fuel sql2 (attempt + 1) (execs + 1)
        | .error e =>
          if maxRepairs ≤ attempt + 1 then .raised e (execs + 1) (attempt + 1)
          else
            match o.draft (attempt + 2) with
            | .ok sql3 => analyzeLoop o maxRepairs fuel sql3 (attempt + 2) (execs + 1)
            | .error e2 => .raised e2 (execs + 1) (attempt + 2)
      else .finished rows (Evaluator.evaluate_result rows) (execs + 1) attempt
    | .error e =>
      if maxRepairs ≤ attempt then .raised e (execs + 1) attempt
      else
        match o.draft (attempt + 1) with
        | .ok sql2 => analyzeLoop o maxRepairs fuel sql2 (attempt + 1) (execs + 1)
        | .error e2 => .raised e2 (execs + 1) (attempt + 1)

/-- `_run_analyze`'s LLM path without a cache hit: the initial generation
(whose exceptions propagate before the loop exists), then the repair loop. -/
def runAnalyze (o : Orc) (maxRepairs : Nat) : Outcome :=
  match o.draft 0 with
  | .error e => .raised e 0 0
  | .ok sql => analyzeLoop o maxRepairs (maxRepairs + 1) sql 0 0

/-- `_run_analyze`'s LLM path on a cache hit: the cached SQL enters the repair
loop directly, with no initial generation. -/
def runAnalyzeCached (o : Orc) (maxRepairs : Nat) (cachedSql : Str) : Outcome :=
  analyzeLoop o maxRepairs (maxRepairs + 1) cachedSql 0 0

end Routes

/-- C3 (amended): an `UnsafeSQL` rejection of the *initially* drafted
candidate is surfaced to the caller before the repair loop starts, with no
execution performed and no repair attempt consumed. -/
theorem c3_initial_guardrail_surfaces (o : Routes.Orc) (maxRepairs : Nat) (msg : Str)
    (h : o.draft 0 = .error (.unsafeSql msg)) :
    Routes.runAnalyze o maxRepairs = .raised (.unsafeSql msg) 0 0 := by
  unfold Routes.runAnalyze
  rw [h]

/-- An oracle whose repair regeneration trips the guardrail once: the initial
draft is safe, the first repair draft raises `UnsafeSQLError`, later drafts
are safe; the first execution returns no rows, later ones return a row. -/
def guardrailTrippedOrc : Routes.Orc where
  draft k :=
    if k = 0 then .ok "select 1".data
    else if k = 1 then .error (.unsafeSql "Blocked SQL keyword detected: drop".data)
    else .ok "select 2".data
  exec i _ := if i = 0 then .ok [] else .ok [7]

/-- C3 counterexample: with max repairs 2, an `UnsafeSQL` rejection raised by
the repair regeneration inside the loop's `try` block is caught by the loop's
`except (UnsafeSQLError, Exception)` clause: it is never surfaced to the
caller and it consumes repair budget (the request finishes successfully with
`retries_used = 2`), refuting the claim that `UnsafeSQL` failures never enter
the repair loop. -/
theorem c3_counterexample :
    guardrailTrippedOrc.draft 1
      = .error (.unsafeSql "Blocked SQL keyword detected: drop".data) ∧
    Routes.runAnalyze guardrailTrippedOrc 2 = .finished [7] .ok 2 2 := by decide

/-- C3 witness: a concrete initial-draft guardrail rejection. -/
theorem c3_witness :
    Routes.runAnalyze
      ⟨fun _ => .error (.unsafeSql "SQL is empty".data), fun _ _ => .ok [1]⟩ 2
      = .raised (.unsafeSql "SQL is empty".data) 0 0 :=
  c3_initial_guardrail_surfaces
    ⟨fun _ => .error (.unsafeSql "SQL is empty".data), fun _ _ => .ok [1]⟩ 2
    ("SQL is empty".data) rfl

/-- C4: with max repairs 2 and a drafter that always returns SQL, (a) when
every execution raises, exactly 3 executions happen (initial + 2 repairs) and
the standing exception of the third execution is re-raised unchanged with
`retries_used = 2`; (b) when every execution returns an empty result, the loop
performs the same 3 executions and finishes softly with the last (empty) rows
and evaluation `retry` instead of raising. -/
theorem c4_repair_bound (o : Routes.Orc) (f g : Nat → Str)
    (hd : ∀ k, o.draft k = .ok (f k)) :
    ((∀ i, o.exec i (f i) = .error (.otherErr (g i))) →
      Routes.runAnalyze o 2 = .raised (.otherErr (g 2)) 3 2) ∧
    ((∀ i, o.exec i (f i) = .ok []) →
      Routes.runAnalyze o 2 = .finished [] .retry 3 2) := by
  constructor
  · intro he
    simp [Routes.runAnalyze, Routes.analyzeLoop, hd, he, Evaluator.evaluate_result]
  · intro he
    simp [Routes.runAnalyze, Routes.analyzeLoop, hd, he, Evaluator.evaluate_result]

/-- An oracle that always drafts the same SQL and always fails execution. -/
def alwaysFailingOrc : Routes.Orc where
  draft _ := .ok "select 1".data
  exec _ _ := .error (.otherErr "relation missing".data)

/-- An oracle that always drafts the same SQL and always returns no rows. -/
def alwaysEmptyOrc : Routes.Orc where
  draft _ := .ok "select 1".data
  exec _ _ := .ok []

/-- C4 witness: the repair bound at the two concrete oracles. -/
theorem c4_witness :
    Routes.runAnalyze alwaysFailingOrc 2
      = .raised (.otherErr "relation missing".data) 3 2 ∧
    Routes.runAnalyze alwaysEmptyOrc 2 = .finished [] .retry 3 2 :=
  ⟨(c4_repair_bound alwaysFailingOrc (fun _ => "select 1".data)
      (fun _ => "relation missing".data) (fun _ => rfl)).1 (fun _ => rfl),
   (c4_repair_bound alwaysEmptyOrc (fun _ => "select 1".data)
      (fun _ => "relation missing".data) (fun _ => rfl)).2 (fun _ => rfl)⟩

namespace Snapshots

/-- `SNAPSHOT_TYPES` of `src/mining/snapshots.py` (line 16). -/
def SNAPSHOT_TYPES : List Str := ["trend_analysis".data, "customer_segmentation".data]

/-- `DEFAULT_DATASET_ID` of `src/mining/snapshots.py` (line 17). -/
def DEFAULT_DATASET_ID : Str := "__default__".data

/-- The scoping fields serialized by `_build_scope_key` (lines 51–62).
`json.dumps` with sorted keys is a deterministic injective encoding of these
fields, so the serialized string is modelled by the field record itself, with
`none` standing for the fixed no-plan default key `"all"` (which no field
serialization equals). -/
structure ScopeFields where
  entity_scope : Str
  entity_dimension : Option Str
  n : Option Int
  metric : Option Str
  time_grain : Option Str
  compare_against : Option Str
deriving DecidableEq

/-- `_build_scope_key` of `src/mining/snapshots.py` (lines 51–62). -/
def build_scope_key : Option Plan → Option ScopeFields
  | none => none
  | some p =>
    some ⟨p.entity_scope, p.entity_dimension, p.n, p.metric, p.time_grain, p.compare_against⟩

/-- The primary key of the `mining_snapshots` table. -/
structure SnapKey where
  snapshot_type : Str
  dataset_id : Str
  scope_key : Option ScopeFields
deriving DecidableEq

/-- A row of the `mining_snapshots` table.  The JSON payload is kept as raw
text (byte-level identity is what the claims compare); `generated_at` is an
integer timestamp in seconds. -/
structure SnapRow where
  snapshot_json : Str
  source_max_date : Option Str
  snapshot_version : Nat
  run_id : Str
  generated_at : Int
deriving DecidableEq

/-- The `mining_snapshots` table as a finite map. -/
abbrev SnapStore := List (SnapKey × SnapRow)

/-- Row lookup by primary key. -/
def lookupSnap (st : SnapStore) (k : SnapKey) : Option SnapRow :=
  (st.find? (fun p => p.1 == k)).map Prod.snd

/-- The `INSERT ... ON CONFLICT (snapshot_type, dataset_id, scope_key) DO
UPDATE` upsert of `refresh_snapshot` (lines 215–232): a first insert stores
version 1; a conflicting insert keeps the key, increments the stored version
and replaces payload, source date, run id and generation time. -/
def upsertSnapshot (st : SnapStore) (k : SnapKey) (payload : Str)
    (source_max_date : Option Str) (rid : Str) (now : Int) : SnapStore × SnapRow :=
  match lookupSnap st k with
  | none =>
    ((k, ⟨payload, source_max_date, 1, rid, now⟩) :: st,
     ⟨payload, source_max_date, 1, rid, now⟩)
  | some old =>
    ((k, ⟨payload, source_max_date, old.snapshot_version + 1, rid, now⟩) ::
       st.filter (fun p => !(p.1 == k)),
     ⟨payload, source_max_date, old.snapshot_version + 1, rid, now⟩)

/-- The snapshot key assembled by `refresh_snapshot`/`_read_snapshot`:
`dataset_id or DEFAULT_DATASET_ID` and the plan-derived scope key. -/
def refreshKey (snapshot_type : Str) (dataset_id : Option Str) (plan : Option Plan) :
    SnapKey :=
  ⟨snapshot_type, pyOr dataset_id DEFAULT_DATASET_ID, build_scope_key plan⟩

/-- `refresh_snapshot` of `src/mining/snapshots.py` (lines 184–247).  The
payload computation (`_build_snapshot_payload`) and the source-max-date
extraction are external database/numeric effects whose already-computed
results are passed in; `rid` is the fresh `uuid4()` and `now` the database
timestamp of the call. -/
def refresh_snapshot (st : SnapStore) (snapshot_type : Str) (dataset_id : Option Str)
    (plan : Option Plan) (payload : Str) (source_max_date : Option Str)
    (rid : Str) (now : Int) : Except Str (SnapStore × SnapRow) :=
  if SNAPSHOT_TYPES.contains snapshot_type = false then .error snapshot_type
  else
    .ok (upsertSnapshot st (refreshKey snapshot_type dataset_id plan)
      payload source_max_date rid now)

/-- `_is_stale` of `src/mining/snapshots.py` (lines 281–302).  Time is in
integer seconds, so `age_hours > ttl_hours` is exactly
`ttl_hours * 3600 < now - generated`.  A missing or unparsable `generated_at`
is `none`.  `isScoped` is the Python truthiness of `dataset_metadata and plan`;
`current_max` is the stringified `SELECT MAX(date_id) FROM fact_sales` and
`recorded_max` the snapshot's stored `source_max_date`. -/
def is_stale (ttl_hours : Int) (generated_at : Option Int) (now : Int)
    (isScoped : Bool) (current_max : Option Str) (recorded_max : Option Str) : Bool :=
  match generated_at with
  | none => true
  | some g =>
    if ttl_hours * 3600 < now - g then true
    else if isScoped then false
    else !(recorded_max == current_max)

/-- The default of `MINING_SNAPSHOT_TTL_HOURS` (line 283). -/
def TTL_HOURS_DEFAULT : Int := 24

/-- `get_snapshot` of `src/mining/snapshots.py` (lines 305–335): return the
stored row when present and fresh, else recompute via `refresh_snapshot`.
The boolean in the result is the `refreshed` flag. -/
def get_snapshot (st : SnapStore) (snapshot_type : Str) (refresh_if_stale : Bool)
    (dataset_id : Option Str) (plan : Option Plan) (isScoped : Bool)
    (ttl_hours now : Int) (current_max : Option Str)
    (payload : Str) (source_max_date : Option Str) (rid : Str) :
    Except Str (SnapStore × SnapRow × Bool) :=
  match lookupSnap st (refreshKey snapshot_type dataset_id plan) with
  | none =>
    (refresh_snapshot st snapshot_type dataset_id plan payload source_max_date rid now).map
      (fun r => (r.1, r.2, true))
  | some row =>
    if refresh_if_stale ∧
        is_stale ttl_hours (some row.generated_at) now isScoped current_max
          row.source_max_date = true then
      (refresh_snapshot st snapshot_type dataset_id plan payload source_max_date rid now).map
        (fun r => (r.1, r.2, true))
    else .ok (st, row, false)

end Snapshots

/-- Lookup immediately after an upsert at the same key finds the new row. -/
theorem lookupSnap_upsert_self (st : Snapshots.SnapStore) (k : Snapshots.SnapKey)
    (payload : Str) (smd : Option Str) (rid : Str) (now : Int) :
    Snapshots.lookupSnap (Snapshots.upsertSnapshot st k payload smd rid now).1 k
      = some (Snapshots.upsertSnapshot st k payload smd rid now).2 := by
  unfold Snapshots.upsertSnapshot
  cases hlk : Snapshots.lookupSnap st k with
  | none =>
    simp only [Snapshots.lookupSnap]
    rw [List.find?_cons_of_pos _ (by simp)]
    rfl
  | some old =>
    simp only [Snapshots.lookupSnap]
    rw [List.find?_cons_of_pos _ (by simp)]
    rfl

/-- C7: for any fixed snapshot key, each `refresh_snapshot` call installs the
supplied fresh `run_id` and strictly increases `snapshot_version` — version 1
on the first insert, previous version plus one afterwards — with no condition
on the payload (in particular even when the recomputed payload is
byte-identical to the stored one). -/
theorem c7_snapshot_version_monotone (st : Snapshots.SnapStore) (stype : Str)
    (did : Option Str) (plan : Option Plan) (payload : Str) (smd : Option Str)
    (rid : Str) (now : Int)
    (htype : Snapshots.SNAPSHOT_TYPES.contains stype = true) :
    Snapshots.refresh_snapshot st stype did plan payload smd rid now
      = .ok (Snapshots.upsertSnapshot st (Snapshots.refreshKey stype did plan)
          payload smd rid now) ∧
    (Snapshots.upsertSnapshot st (Snapshots.refreshKey stype did plan)
        payload smd rid now).2.run_id = rid ∧
    Snapshots.lookupSnap
        (Snapshots.upsertSnapshot st (Snapshots.refreshKey stype did plan)
          payload smd rid now).1 (Snapshots.refreshKey stype did plan)
      = some (Snapshots.upsertSnapshot st (Snapshots.refreshKey stype did plan)
          payload smd rid now).2 ∧
    (Snapshots.lookupSnap st (Snapshots.refreshKey stype did plan) = none →
      (Snapshots.upsertSnapshot st (Snapshots.refreshKey stype did plan)
        payload smd rid now).2.snapshot_version = 1) ∧
    (∀ old, Snapshots.lookupSnap st (Snapshots.refreshKey stype did plan) = some old →
      (Snapshots.upsertSnapshot st (Snapshots.refreshKey stype did plan)
          payload smd rid now).2.snapshot_version = old.snapshot_version + 1 ∧
      old.snapshot_version <
        (Snapshots.upsertSnapshot st (Snapshots.refreshKey stype did plan)
          payload smd rid now).2.snapshot_version) := by
  refine ⟨?_, ?_, lookupSnap_upsert_self _ _ _ _ _ _, ?_, ?_⟩
  · unfold Snapshots.refresh_snapshot
    rw [if_neg (by rw [htype]; simp)]
  · unfold Snapshots.upsertSnapshot
    cases hlk : Snapshots.lookupSnap st (Snapshots.refreshKey stype did plan) <;> rfl
  · intro hnone
    unfold Snapshots.upsertSnapshot
    rw [hnone]
  · intro old hold
    unfold Snapshots.upsertSnapshot
    rw [hold]
    exact ⟨rfl, Nat.lt_succ_self _⟩

/-- First refresh of the C7 witness scenario: empty store, payload `{}`. -/
def snapW1 : Snapshots.SnapStore × Snapshots.SnapRow :=
  Snapshots.upsertSnapshot []
    (Snapshots.refreshKey "trend_analysis".data none none) "{}".data none "run-1".data 0

/-- Second refresh of the C7 witness scenario: byte-identical payload, new
run id. -/
def snapW2 : Snapshots.SnapStore × Snapshots.SnapRow :=
  Snapshots.upsertSnapshot snapW1.1
    (Snapshots.refreshKey "trend_analysis".data none none) "{}".data none "run-2".data 100

/-- C7 witness: refreshing the same key twice with a byte-identical payload
yields versions 1 then 2 and installs each supplied fresh run id. -/
theorem c7_witness :
    Snapshots.refresh_snapshot [] "trend_analysis".data none none
      "{}".data none "run-1".data 0 = .ok snapW1 ∧
    snapW1.2.snapshot_version = 1 ∧
    snapW1.2.run_id = "run-1".data ∧
    Snapshots.refresh_snapshot snapW1.1 "trend_analysis".data none none
      "{}".data none "run-2".data 100 = .ok snapW2 ∧
    snapW2.2.snapshot_version = snapW1.2.snapshot_version + 1 ∧
    snapW2.2.run_id = "run-2".data := by
  have h1 := c7_snapshot_version_monotone [] "trend_analysis".data none none
    "{}".data none "run-1".data 0 (by decide)
  have h2 := c7_snapshot_version_monotone snapW1.1 "trend_analysis".data none none
    "{}".data none "run-2".data 100 (by decide)
  exact ⟨h1.1, h1.2.2.2.1 (by decide), h1.2.1, h2.1,
    (h2.2.2.2.2 snapW1.2 (by decide)).1, h2.2.1⟩

/-- C8: a snapshot older than the TTL is always stale, whatever the scoping
and source recency; within the TTL the dataset-agnostic default path is stale
exactly when the recorded `source_max_date` differs from the current source
maximum, while the dataset-scoped path (metadata and plan supplied) is never
stale. -/
theorem c8_staleness (ttl g now : Int) (isScoped : Bool) (cur rec : Option Str) :
    (ttl * 3600 < now - g →
      Snapshots.is_stale ttl (some g) now isScoped cur rec = true) ∧
    (now - g ≤ ttl * 3600 →
      (Snapshots.is_stale ttl (some g) now false cur rec = true ↔ ¬ rec = cur) ∧
      Snapshots.is_stale ttl (some g) now true cur rec = false) := by
  constructor
  · intro h
    simp only [Snapshots.is_stale]
    rw [if_pos h]
  · intro h
    constructor
    · simp only [Snapshots.is_stale]
      rw [if_neg (not_lt.mpr h), if_neg (by simp)]
      simp
    · simp only [Snapshots.is_stale]
      rw [if_neg (not_lt.mpr h)]
      rfl

/-- C8 witness: a snapshot generated 25 hours ago with the default TTL of 24
hours is stale even on the dataset-scoped path and even when the recorded
source maximum equals the current one; within the TTL (age 1 hour) the default
path is stale exactly on a source-date change and the scoped path is fresh. -/
theorem c8_witness :
    Snapshots.is_stale Snapshots.TTL_HOURS_DEFAULT (some 0) (25 * 3600) true
      (some "2024-01-31".data) (some "2024-01-31".data) = true ∧
    (Snapshots.is_stale Snapshots.TTL_HOURS_DEFAULT (some 0) 3600 false
      (some "2024-01-31".data) (some "2024-01-30".data) = true ↔
      ¬ (some "2024-01-30".data : Option Str) = some "2024-01-31".data) ∧
    Snapshots.is_stale Snapshots.TTL_HOURS_DEFAULT (some 0) 3600 true
      (some "2024-01-31".data) (some "2024-01-30".data) = false := by
  refine ⟨?_, ?_, ?_⟩
  · exact (c8_staleness Snapshots.TTL_HOURS_DEFAULT 0 (25 * 3600) true
      (some "2024-01-31".data) (some "2024-01-31".data)).1 (by decide)
  · exact ((c8_staleness Snapshots.TTL_HOURS_DEFAULT 0 3600 false
      (some "2024-01-31".data) (some "2024-01-30".data)).2 (by decide)).1
  · exact ((c8_staleness Snapshots.TTL_HOURS_DEFAULT 0 3600 true
      (some "2024-01-31".data) (some "2024-01-30".data)).2 (by decide)).2

namespace MetadataStore

/-- `_compose_plan_cache_key` of `src/metadata/store.py` (lines 66–69). -/
def compose_plan_cache_key (dataset_id : Option Str) (plan_key : Str)
    (schema_hash : Option Str) : Str :=
  pyOr dataset_id "global".data ++ "::".data ++ pyOr schema_hash "no_schema_hash".data
    ++ "::".data ++ plan_key

/-- The legacy cache key `f"{dataset_id or 'global'}::{plan_key}"` used as a
read fallback. -/
def legacy_plan_cache_key (dataset_id : Option Str) (plan_key : Str) : Str :=
  pyOr dataset_id "global".data ++ "::".data ++ plan_key

/-- A file-backend cache entry (the payload written by `_file_set_cached_sql`). -/
structure FileCacheEntry where
  sql : Str
  updated_at : Str
  schema_hash : Option Str
deriving DecidableEq

/-- The JSON object of the plan→SQL cache file as a dict. -/
abbrev FileCache := List (Str × FileCacheEntry)

/-- `_file_get_cached_sql` of `src/metadata/store.py` (lines 741–750):
primary-key lookup with a legacy-key fallback. -/
def file_get_cached_sql (cache : FileCache) (dataset_id : Option Str) (plan_key : Str)
    (schema_hash : Option Str) : Option Str :=
  match dget cache (compose_plan_cache_key dataset_id plan_key schema_hash) with
  | some item => some item.sql
  | none =>
    match dget cache (legacy_plan_cache_key dataset_id plan_key) with
    | some item => some item.sql
    | none => none

/-- `_file_set_cached_sql` of `src/metadata/store.py` (lines 753–757). -/
def file_set_cached_sql (cache : FileCache) (dataset_id : Option Str) (plan_key : Str)
    (sql : Str) (schema_hash : Option Str) (now : Str) : FileCache :=
  dinsert (compose_plan_cache_key dataset_id plan_key schema_hash)
    ⟨sql, now, schema_hash⟩ cache

/-- A row of the `agent_plan_sql_cache` table. -/
structure PgCacheRow where
  dataset_id : Option Str
  schema_hash : Option Str
  plan_key : Str
  sql_text : Str
  updated_at : Str
deriving DecidableEq

/-- The `agent_plan_sql_cache` table keyed by `cache_key`. -/
abbrev PgCache := List (Str × PgCacheRow)

/-- `_pg_get_cached_sql` of `src/metadata/store.py` (lines 497–511):
primary-key lookup with a legacy-key fallback. -/
def pg_get_cached_sql (cache : PgCache) (dataset_id : Option Str) (plan_key : Str)
    (schema_hash : Option Str) : Option Str :=
  match dget cache (compose_plan_cache_key dataset_id plan_key schema_hash) with
  | some row => some row.sql_text
  | none =>
    match dget cache (legacy_plan_cache_key dataset_id plan_key) with
    | some row => some row.sql_text
    | none => none

/-- `_pg_set_cached_sql` of `src/metadata/store.py` (lines 514–536): an
`ON CONFLICT (cache_key) DO UPDATE` upsert overwriting every stored field. -/
def pg_set_cached_sql (cache : PgCache) (dataset_id : Option Str) (plan_key : Str)
    (sql : Str) (schema_hash : Option Str) (now : Str) : PgCache :=
  dinsert (compose_plan_cache_key dataset_id plan_key schema_hash)
    ⟨dataset_id, schema_hash, plan_key, sql, now⟩ cache

end MetadataStore

example :
    MetadataStore.compose_plan_cache_key (some []) "k".data none
      = "global::no_schema_hash::k".data := by decide

example :
    MetadataStore.compose_plan_cache_key (some "ds1".data) "k".data (some "abc".data)
      = "ds1::abc::k".data := by decide

example :
    Snapshots.get_snapshot
      [(Snapshots.refreshKey "trend_analysis".data none none,
        ⟨"{}".data, some "2024-01-31".data, 1, "run-1".data, 0⟩)]
      "trend_analysis".data true none none false 24 (25 * 3600)
      (some "2024-01-31".data) "{}".data none "run-2".data
      = .ok ([(Snapshots.refreshKey "trend_analysis".data none none,
          ⟨"{}".data, none, 2, "run-2".data, 25 * 3600⟩)],
         ⟨"{}".data, none, 2, "run-2".data, 25 * 3600⟩, true) := by decide

example :
    Snapshots.get_snapshot
      [(Snapshots.refreshKey "trend_analysis".data none none,
        ⟨"{}".data, some "2024-01-31".data, 1, "run-1".data, 0⟩)]
      "trend_analysis".data true none none false 24 3600
      (some "2024-01-31".data) "{}".data none "run-2".data
      = .ok ([(Snapshots.refreshKey "trend_analysis".data none none,
          ⟨"{}".data, some "2024-01-31".data, 1, "run-1".data, 0⟩)],
         ⟨"{}".data, some "2024-01-31".data, 1, "run-1".data, 0⟩, false) := by decide

/-- Dict lookup immediately after a dict insert at the same key. -/
theorem dget_dinsert_self {α : Type} (k : Str) (v : α) (m : List (Str × α)) :
    dget (dinsert k v m) k = some v := by
  unfold dget dinsert
  rw [List.find?_cons_of_pos _ (by simp)]
  rfl

/-- C9: on both the file backend and the Postgres backend, a `get` immediately
after a `set` with the same `(dataset_id, plan_signature, schema_hash)` key
returns exactly the stored SQL, from any prior cache state. -/
theorem c9_cache_roundtrip (fc : MetadataStore.FileCache) (pc : MetadataStore.PgCache)
    (did : Option Str) (pk sql : Str) (sh : Option Str) (nowF nowP : Str) :
    MetadataStore.file_get_cached_sql
      (MetadataStore.file_set_cached_sql fc did pk sql sh nowF) did pk sh = some sql ∧
    MetadataStore.pg_get_cached_sql
      (MetadataStore.pg_set_cached_sql pc did pk sql sh nowP) did pk sh = some sql := by
  constructor
  · unfold MetadataStore.file_get_cached_sql MetadataStore.file_set_cached_sql
    rw [dget_dinsert_self]
  · unfold MetadataStore.pg_get_cached_sql MetadataStore.pg_set_cached_sql
    rw [dget_dinsert_self]
